import Mathlib

/-!
Verification of the cocoa-trading signal engine.

Shallow embedding of the decision logic of the repository:
`check_fundamentals.py`, `fetch_history.py`, `fetch_enso.py`,
`fetch_technicals.py`, `main.py` and `market_narrative.py`.
Python floats are modelled as exact rationals; Python dict payloads are
modelled as structures; a Python exception is modelled as `Except.error`;
a float that would be NaN is modelled as `Option.none`.
-/

/-- Arithmetic mean of a list of rationals, `statistics.mean` /
`Series.mean`.  The callers in the source always guard against the empty
list (where `statistics.mean` would raise); on `[]` this returns `0 / 0 = 0`,
a value no embedded call site ever observes. -/
def mean (l : List ℚ) : ℚ := l.sum / l.length

/-- The last `n` elements of a list, used to model
`Series.rolling(window=n, min_periods=n).mean().iloc[-1]`, which averages the
final `n` entries of a series. -/
def lastN (n : ℕ) (l : List ℚ) : List ℚ := l.drop (l.length - n)

/-! ## Fundamental Classifier — check_fundamentals.py -/

/-- Embeds `calculate_position_multiplier` (check_fundamentals.py lines 13-20):
stocks-to-usage below 30 gives 2.5x, below 35 gives 2.0x, else 1.0x.
Display strings are the source's, with the emoji prefix dropped. -/
def calculate_position_multiplier (r : ℚ) : ℚ × String :=
  if r < 30 then (5/2, "CRITICAL DEFICIT")
  else if r < 35 then (2, "LOW STOCKS")
  else (1, "STOCKS HEALTHY")

/-- The dict returned by `get_fundamentals_analysis` (check_fundamentals.py
lines 36-59). -/
structure FundAnalysis where
  stocks_to_usage : ℚ
  multiplier : ℚ
  status : String
  status_display : String
deriving DecidableEq, Repr

/-- Embeds `get_fundamentals_analysis` (check_fundamentals.py lines 36-59),
taking the ratio read from `fundamentals.json` as its argument. -/
def get_fundamentals_analysis (r : ℚ) : FundAnalysis :=
  let p := calculate_position_multiplier r
  let status := if p.1 = 5/2 then "CRITICAL_DEFICIT"
                else if p.1 = 2 then "LOW_STOCKS"
                else "HEALTHY"
  ⟨r, p.1, status, p.2⟩

/-! ## Weather Anomaly Detector — fetch_history.py -/

/-- The three drought classifications assigned at fetch_history.py
lines 86-95 (the Python code uses the strings "Severe Drought",
"Dry Warning", "Normal"). -/
inductive DroughtStatus | severe | dry | normal
deriving DecidableEq, Repr

/-- The heat classifications of fetch_history.py lines 107-112
("Critical Heat" / "Normal"). -/
inductive HeatStatus | critical | normal
deriving DecidableEq, Repr

/-- The harmattan classifications of fetch_history.py lines 125-130
("Harmattan Active" / "Normal"). -/
inductive HarmattanStatus | active | normal
deriving DecidableEq, Repr

/-- Embeds the drought-status decision of fetch_history.py lines 86-95 as a
function of an already-computed z-score:
`z < -1.5` gives Severe Drought, `elif z < -1.0` gives Dry Warning,
else Normal. -/
def droughtStatusOfZ (z : ℚ) : DroughtStatus :=
  if z < -(3/2) then .severe
  else if z < -1 then .dry
  else .normal

/-- Sample variance with Bessel's correction, the square of
`statistics.stdev` (used at fetch_history.py line 79 on the five yearly
rainfall totals). -/
def sampleVariance (l : List ℚ) : ℚ :=
  (l.map (fun x => (x - mean l) ^ 2)).sum / ((l.length : ℚ) - 1)

/-- A raised Python exception, modelled as an error value. -/
inductive PyError | zeroDivision
deriving DecidableEq, Repr

/-- The drought tier of fetch_history.py lines 86-95 expressed in terms of
the numerator `dev = current - average` and the variance `v = stdev ** 2`
instead of the (irrational) quotient `z = dev / stdev`.  For `v > 0` the
conditions are exactly equivalent to `z < -1.5` / `z < -1.0` on the real
quotient: see `droughtTierOfDev_matches_z`. -/
def droughtTierOfDev (dev v : ℚ) : DroughtStatus :=
  if dev < 0 ∧ (9/4) * v < dev ^ 2 then .severe
  else if dev < 0 ∧ v < dev ^ 2 then .dry
  else .normal

/-- Embeds the per-region rainfall analysis of `analyze_weather`
(fetch_history.py lines 76-95).  The argument is
`rainfall_values = list(yearly_rainfall.values())`, ordered 2021..2025, so
`current_rainfall = yearly_rainfall[2025]` is the last element.
`std_deviation = statistics.stdev(rainfall_values)` is zero exactly when the
sample variance is zero, and in that case the division
`z_score = (current - average) / std_deviation` at line 83 raises a Python
`ZeroDivisionError` (a float divided by `0.0`); there is no guard and no
sentinel result in the source.  Otherwise the code classifies the z-score
via the thresholds embedded in `droughtTierOfDev`. -/
def droughtAnalysis (rainfall_values : List ℚ) : Except PyError DroughtStatus :=
  let current := rainfall_values.getLast?.getD 0
  let average := mean rainfall_values
  let dev := current - average
  let v := sampleVariance rainfall_values
  if v = 0 then .error .zeroDivision
  else .ok (droughtTierOfDev dev v)

/-- Embeds the harmattan detection of `analyze_weather` (fetch_history.py
lines 114-130).  Wind and humidity are the daily series of the current
window with `None` entries for missing days.  `avg_wind_speed` defaults to
`0` when every wind reading is missing, `avg_humidity` defaults to `100`
when every humidity reading is missing; the alert fires when average wind
exceeds 46 km/h and average humidity is below 40%. -/
def harmattanStatus (wind humidity : List (Option ℚ)) : HarmattanStatus :=
  let valid_wind := wind.filterMap id
  let valid_humidity := humidity.filterMap id
  let avg_wind_speed := if valid_wind.isEmpty then 0 else mean valid_wind
  let avg_humidity := if valid_humidity.isEmpty then 100 else mean valid_humidity
  if avg_wind_speed > 46 ∧ avg_humidity < 40 then .active
  else .normal

/-- The classified per-region record stored into `results["regions"]` by
`analyze_weather` (fetch_history.py lines 133-150), restricted to the three
status fields the downstream fusion and narrative code reads. -/
structure RegionData where
  drought_status : DroughtStatus
  heat_status : HeatStatus
  harmattan_status : HarmattanStatus
deriving DecidableEq, Repr

/-- The `results` dict of `analyze_weather` (fetch_history.py lines 54-58):
the per-region records, the list of regions classified Severe Drought, and
the dual-region flag. -/
structure WeatherResult where
  regions : List (String × RegionData)
  severe_drought_regions : List String
  dual_region_drought_detected : Bool
deriving DecidableEq, Repr

/-- Embeds the aggregation of `analyze_weather` (fetch_history.py lines
54-58, 86-89 and 152-153) over already-classified regions: a region's name
is appended to `severe_drought_regions` exactly when its drought status is
Severe Drought (line 89), and `dual_region_drought_detected` is set iff at
least two names were collected (line 153).  Region names come from the keys
of the `locations` dict and are therefore pairwise distinct. -/
def analyze_weather_results (regions : List (String × RegionData)) : WeatherResult :=
  let severe := (regions.filter (fun r => r.2.drought_status == DroughtStatus.severe)).map (fun r => r.1)
  ⟨regions, severe, decide (2 ≤ severe.length)⟩

/-! ## Climate Index Interpreter — fetch_enso.py -/

/-- One whitespace-separated token of the ONI text.  `isdigitTok` models
Python's `str.isdigit()`; `floatVal` is `some q` when `float(token)`
succeeds with value `q` and `none` when it raises `ValueError`.  (A token
for which `isdigit()` holds always parses as a float; the year tokens of
the real feed are such tokens.) -/
structure Tok where
  isdigitTok : Bool
  floatVal : Option ℚ
deriving DecidableEq, Repr

/-- The month names used for display (fetch_enso.py lines 24-25). -/
def month_names : List String :=
  ["Jan", "Feb", "Mar", "Apr", "May", "Jun",
   "Jul", "Aug", "Sep", "Oct", "Nov", "Dec"]

/-- The contribution of one value token: `none` when `float(...)` raises
`ValueError` or when the parsed value is below the `-90` missing-data
sentinel, both of which `continue` in the source (fetch_enso.py
lines 42-52). -/
def tokValue (t : Tok) : Option ℚ :=
  t.floatVal.bind (fun v => if v < -90 then none else some v)

/-- The values a single row contributes, in column order: the row's first
12 value columns (`parts[1:13]`), keeping only tokens that parse and are
not the missing-data sentinel. -/
def rowValues (parts : List Tok) : List ℚ :=
  ((parts.drop 1).take 12).filterMap tokValue

/-- One step of the inner loop of `parse_oni_data` (fetch_enso.py
lines 41-52): a parseable, non-sentinel value replaces the running
`(latest_value, latest_year, latest_month)` triple. -/
def oniStep (year : ℚ) (acc : Option (ℚ × ℚ × ℕ)) (p : ℕ × Tok) : Option (ℚ × ℚ × ℕ) :=
  match p.2.floatVal with
  | none => acc
  | some v => if v < -90 then acc else some (v, year, p.1)

/-- One step of the outer loop of `parse_oni_data` (fetch_enso.py
lines 27-52): skip empty rows and rows whose first token is not a whole
number; skip two-token rows (the year-range header); otherwise scan the
row's first 12 value columns. -/
def oniRowStep (acc : Option (ℚ × ℚ × ℕ)) (parts : List Tok) : Option (ℚ × ℚ × ℕ) :=
  match parts with
  | [] => acc
  | p0 :: rest =>
    if !p0.isdigitTok then acc
    else if parts.length = 2 then acc
    else
      let year := p0.floatVal.getD 0
      (rest.take 12).enum.foldl (oniStep year) acc

/-- Embeds `parse_oni_data` (fetch_enso.py lines 15-54) over the
tokenized lines of the feed, returning the final
`(latest_value, latest_year, latest_month)` triple, `none` when no valid
value was ever seen. -/
def parse_oni_data (rows : List (List Tok)) : Option (ℚ × ℚ × ℕ) :=
  rows.foldl oniRowStep none

/-- Row qualification as worded by the specification: the first token is a
whole number and the row has more than 2 tokens.  (The source instead skips
rows with exactly 2 tokens; a one-token row enters its inner loop but has
no value columns, so both readings produce the same values.) -/
def specQual (parts : List Tok) : Bool :=
  (match parts with
   | [] => false
   | p0 :: _ => p0.isdigitTok) && decide (2 < parts.length)

/-- The non-sentinel values of the qualifying rows, in file order, per the
specification's description of the scan. -/
def specValues (rows : List (List Tok)) : List ℚ :=
  (rows.filter specQual).flatMap rowValues

/-- Embeds `interpret_oni` (fetch_enso.py lines 57-64); display strings
keep the source text minus the emoji prefix. -/
def interpret_oni (v : ℚ) : String × String :=
  if v > 6/5 then ("BULLISH", "EL NINO SIGNAL: STRONG BULLISH (Lead time 6-8 mo)")
  else if v < -1 then ("BEARISH", "LA NINA SIGNAL: Check Atlantic Temps")
  else ("NEUTRAL", "ENSO Neutral")

/-- The dict returned by `get_enso_signal` (fetch_enso.py lines 67-94). -/
structure EnsoResult where
  value : Option ℚ
  signal : String
  month : Option String
  year : Option ℚ
  display : String
deriving DecidableEq, Repr

/-- Embeds `get_enso_signal` (fetch_enso.py lines 67-94) over the tokenized
feed: a parsed value is classified by `interpret_oni`; when the series
contained no valid value the sentinel record with signal `"UNKNOWN"` is
returned. -/
def get_enso_signal (rows : List (List Tok)) : EnsoResult :=
  match parse_oni_data rows with
  | some (v, y, m) =>
    let p := interpret_oni v
    ⟨some v, p.1, month_names.get? m, some y, p.2⟩
  | none =>
    ⟨none, "UNKNOWN", none, none, "Error: Could not parse ONI data"⟩

/-! ## Technical Indicator Engine — fetch_technicals.py -/

/-- Bar-to-bar price changes, `prices.diff()` without its leading NaN:
element `i` is `prices[i+1] - prices[i]`. -/
def diffs (prices : List ℚ) : List ℚ :=
  List.zipWith (fun a b => a - b) prices.tail prices

/-- The gains series `delta.where(delta > 0, 0)` (fetch_technicals.py
line 26).  The leading `0` is the NaN head of `diff()`, which
`where` replaces with `0` because `NaN > 0` is false. -/
def gainsList (prices : List ℚ) : List ℚ :=
  0 :: (diffs prices).map (fun d => if d > 0 then d else 0)

/-- The losses series `(-delta).where(delta < 0, 0)` (fetch_technicals.py
line 27), with the same NaN-head-to-`0` replacement. -/
def lossesList (prices : List ℚ) : List ℚ :=
  0 :: (diffs prices).map (fun d => if d < 0 then -d else 0)

/-- The final 14-period (in general, `period`-period) rolling average of
gains, `avg_gains.iloc[-1]` (fetch_technicals.py line 30). -/
def avg_gains_last (prices : List ℚ) (period : ℕ) : ℚ :=
  mean (lastN period (gainsList prices))

/-- The final rolling average of losses, `avg_losses.iloc[-1]`
(fetch_technicals.py line 31). -/
def avg_losses_last (prices : List ℚ) (period : ℕ) : ℚ :=
  mean (lastN period (lossesList prices))

/-- Embeds `calculate_rsi` (fetch_technicals.py lines 11-37).  With fewer
than `period` bars the rolling means are NaN (`min_periods=period`) and so
is the returned RSI: modelled as `none`.  The division `rs = avgGain/avgLoss`
follows IEEE float semantics: with `avgLoss = 0` and `avgGain > 0` it gives
`rs = +inf`, hence `rsi = 100 - 100/(1+inf) = 100`; with both averages zero
it gives `rs = NaN`, hence a NaN RSI, modelled as `none`. -/
def calculate_rsi (prices : List ℚ) (period : ℕ) : Option ℚ :=
  if prices.length < period then none
  else
    let g := avg_gains_last prices period
    let l := avg_losses_last prices period
    if l = 0 then (if g = 0 then none else some 100)
    else some (100 - 100 / (1 + g / l))

/-- Embeds `calculate_sma` (fetch_technicals.py lines 40-52): the rolling
mean of the last `period` closes, NaN (`none`) with fewer bars. -/
def calculate_sma (prices : List ℚ) (period : ℕ) : Option ℚ :=
  if prices.length < period then none
  else some (mean (lastN period prices))

/-- The dict returned by `get_technical_analysis` (fetch_technicals.py
lines 55-154), restricted to the fields downstream code reads (the
display-only `trend_display` / `rsi_display` duplicates are omitted). -/
structure TechResult where
  price : Option ℚ
  rsi : Option ℚ
  sma : Option ℚ
  volume : ℤ
  signal : String
  trend : String
  rsi_status : String
  explanation : String
deriving DecidableEq, Repr

/-- Embeds `get_technical_analysis` (fetch_technicals.py lines 55-154) over
the closes and volumes of the fetched history (an empty frame has length 0,
so `hist.empty or len(hist) < 50` is just `len < 50`).  In the data-rich
branch a NaN RSI (constant last 14 closes) compares false against both 70
and 30, landing in the "Neutral" arm, as in IEEE float comparison; the SMA
is always defined there since at least 50 bars are present. -/
def get_technical_analysis (closes : List ℚ) (volumes : List (Option ℤ)) : TechResult :=
  if closes.length < 50 then
    ⟨none, none, none, 0, "UNKNOWN", "Unknown", "Unknown", "Insufficient data for analysis"⟩
  else
    let current_price := closes.getLast?.getD 0
    let latest_volume := (volumes.getLast?.getD none).getD 0
    let sma_50 := (calculate_sma closes 50).getD 0
    let rsi_14 := calculate_rsi closes 14
    let trend := if current_price > sma_50 then "Uptrend" else "Downtrend"
    let rsi_status :=
      match rsi_14 with
      | some r => if r > 70 then "Overbought" else if r < 30 then "Oversold" else "Neutral"
      | none => "Neutral"
    let signal :=
      if trend = "Uptrend" ∧ rsi_status = "Oversold" then "BUY"
      else if trend = "Uptrend" ∧ rsi_status = "Neutral" then "BUY"
      else if trend = "Uptrend" ∧ rsi_status = "Overbought" then "WAIT"
      else if trend = "Downtrend" ∧ rsi_status = "Oversold" then "WAIT"
      else if trend = "Downtrend" ∧ rsi_status = "Overbought" then "SELL"
      else "WAIT"
    ⟨some current_price, rsi_14, some sma_50, latest_volume, signal, trend, rsi_status,
     trend ++ " | " ++ rsi_status ++ " | " ++ signal⟩

/-! ## Signal Fusion — main.py -/

/-- Signal strength tags, the strings `"BULLISH"`, `"EXTREME_BULLISH"`,
`"BEARISH"` of main.py. -/
inductive Strength | bullish | extreme_bullish | bearish
deriving DecidableEq, Repr

/-- A `(strength, label)` pair as appended to `signals` in
`calculate_risk_appetite`. -/
abbrev Signal := Strength × String

/-- The five appetite levels of main.py lines 76-90 (the Python strings
"MAXIMUM CONVICTION", "HIGH CONVICTION", "MODERATE BULLISH", "CAUTIOUS",
"NEUTRAL", minus their emoji prefixes). -/
inductive Appetite
  | max_conviction | high_conviction | moderate_bullish | cautious | neutral
deriving DecidableEq, Repr

/-- The per-region signals of `calculate_risk_appetite` (main.py
lines 54-60): one Bullish signal per region for each of Severe Drought,
Critical Heat and Harmattan Active, in iteration order. -/
def region_signals (regions : List (String × RegionData)) : List Signal :=
  regions.flatMap (fun r =>
    (if r.2.drought_status == DroughtStatus.severe
       then [(Strength.bullish, r.1 ++ " Drought")] else []) ++
    (if r.2.heat_status == HeatStatus.critical
       then [(Strength.bullish, r.1 ++ " Heat Stress")] else []) ++
    (if r.2.harmattan_status == HarmattanStatus.active
       then [(Strength.bullish, r.1 ++ " Harmattan")] else []))

/-- The climate-index signal of `calculate_risk_appetite` (main.py
lines 62-66). -/
def enso_signals (signal : String) : List Signal :=
  if signal == "BULLISH" then [(Strength.bullish, "El Nino Active")]
  else if signal == "BEARISH" then [(Strength.bearish, "La Nina Active")]
  else []

/-- The full signal list built by `calculate_risk_appetite` (main.py
lines 47-66): the dual-region ExtremeBullish signal first, then the
per-region signals, then the climate-index signal. -/
def buildSignals (weather : WeatherResult) (enso : EnsoResult) : List Signal :=
  (if weather.dual_region_drought_detected
     then [(Strength.extreme_bullish, "Dual-Region Drought")] else []) ++
  region_signals weather.regions ++
  enso_signals enso.signal

/-- `bullish_count` of main.py line 72: signals whose strength is BULLISH
or EXTREME_BULLISH. -/
def bullish_count (signals : List Signal) : ℕ :=
  (signals.filter (fun s =>
    s.1 == Strength.bullish || s.1 == Strength.extreme_bullish)).length

/-- `extreme_count` of main.py line 73. -/
def extreme_count (signals : List Signal) : ℕ :=
  (signals.filter (fun s => s.1 == Strength.extreme_bullish)).length

/-- `bearish_count` of main.py line 74. -/
def bearish_count (signals : List Signal) : ℕ :=
  (signals.filter (fun s => s.1 == Strength.bearish)).length

/-- The appetite/description decision of `calculate_risk_appetite`
(main.py lines 76-90), in the source's priority order. -/
def appetite_description (signals : List Signal) : Appetite × String :=
  if 0 < extreme_count signals then
    (.max_conviction, "Dual-region supply shock - highest probability trade")
  else if 2 ≤ bullish_count signals then
    (.high_conviction, "Multiple bullish signals aligned")
  else if bullish_count signals = 1 then
    (.moderate_bullish, "Single bullish signal active")
  else if 0 < bearish_count signals then
    (.cautious, "Bearish climate signal present")
  else
    (.neutral, "No strong directional signals")

/-- Embeds `calculate_risk_appetite` (main.py lines 40-92), returning the
`(appetite, description, multiplier, signals)` tuple.  The multiplier is
read verbatim from the fundamentals record (line 69). -/
def calculate_risk_appetite (weather : WeatherResult) (enso : EnsoResult)
    (fundamentals_analysis : FundAnalysis) :
    Appetite × String × ℚ × List Signal :=
  let signals := buildSignals weather enso
  let ad := appetite_description signals
  (ad.1, ad.2, fundamentals_analysis.multiplier, signals)

/-! ## Narrative Engine — market_narrative.py -/

/-- The `triggers` dict of `analyze_weather_triggers`
(market_narrative.py lines 15-21). -/
structure Triggers where
  drought_regions : List String
  heat_regions : List String
  harmattan_regions : List String
  dual_region_stress : Bool
  stressed_regions : List String
deriving DecidableEq, Repr

/-- Whether a region has at least one active stress condition, the
`is_stressed` flag of market_narrative.py lines 24-36. -/
def isStressed (d : RegionData) : Bool :=
  d.drought_status == DroughtStatus.severe ||
  d.heat_status == HeatStatus.critical ||
  d.harmattan_status == HarmattanStatus.active

/-- Embeds `analyze_weather_triggers` (market_narrative.py lines 8-45):
one pass over the regions appending each region's name to the per-condition
lists and, when any condition is active, to `stressed_regions`;
`dual_region_stress` is set iff at least two regions were stressed
(lines 42-43). -/
def analyze_weather_triggers (weather_data : WeatherResult) : Triggers :=
  let dr := (weather_data.regions.filter
    (fun r => r.2.drought_status == DroughtStatus.severe)).map (fun r => r.1)
  let hr := (weather_data.regions.filter
    (fun r => r.2.heat_status == HeatStatus.critical)).map (fun r => r.1)
  let wr := (weather_data.regions.filter
    (fun r => r.2.harmattan_status == HarmattanStatus.active)).map (fun r => r.1)
  let sr := (weather_data.regions.filter (fun r => isStressed r.2)).map (fun r => r.1)
  ⟨dr, hr, wr, decide (2 ≤ sr.length), sr⟩

/-- One entry of the `holding_times` list of `calculate_holding_time`
(market_narrative.py lines 61-94). -/
structure HoldingEntry where
  trigger : String
  duration : String
  exit_condition : String
  rationale : String
deriving DecidableEq, Repr

/-- The drought holding entry (market_narrative.py lines 61-67). -/
def droughtEntry : HoldingEntry :=
  ⟨"Drought", "3-4 weeks",
   "Exit when rains return or Z-Score (SPI) rises above -1.0",
   "Drought premium decays quickly once precipitation normalizes"⟩

/-- The heat-stress holding entry (market_narrative.py lines 69-76). -/
def heatEntry : HoldingEntry :=
  ⟨"Heat Stress", "8-10 months",
   "Exit before main crop harvest in October-December",
   "Heat damage affects pod development for the NEXT main crop season"⟩

/-- The harmattan holding entry (market_narrative.py lines 78-85). -/
def harmattanEntry : HoldingEntry :=
  ⟨"Harmattan Winds", "4-6 weeks",
   "Exit when humidity rises above 50% and winds calm",
   "Harmattan drying risk is seasonal and temporary"⟩

/-- The El Nino holding entry (market_narrative.py lines 87-94). -/
def elNinoEntry : HoldingEntry :=
  ⟨"El Nino", "6-8 months",
   "Exit when ONI drops below +0.5 or full crop cycle completes",
   "El Nino creates persistent drought conditions with 6-8 month lag to production impact"⟩

/-- The fixed duration precedence list of market_narrative.py line 105. -/
def duration_order : List String :=
  ["6-8 months", "8-10 months", "4-6 weeks", "3-4 weeks"]

/-- The `holding_times` list built by `calculate_holding_time`
(market_narrative.py lines 57-94), in source append order: drought, heat,
harmattan, then the El Nino entry when the climate-index signal is
BULLISH.  Python's `if triggers[...]:` is truthiness, i.e. non-emptiness. -/
def holdingTimesList (triggers : Triggers) (enso_signal : Option String) :
    List HoldingEntry :=
  (if triggers.drought_regions.isEmpty then [] else [droughtEntry]) ++
  (if triggers.heat_regions.isEmpty then [] else [heatEntry]) ++
  (if triggers.harmattan_regions.isEmpty then [] else [harmattanEntry]) ++
  (if enso_signal == some "BULLISH" then [elNinoEntry] else [])

/-- The primary-selection loop of market_narrative.py lines 106-109:
starting from `holding_times[0]`, replace the running primary whenever an
entry's duration ranks strictly earlier in `duration_order`. -/
def pickPrimary (l : List HoldingEntry) (first : HoldingEntry) : HoldingEntry :=
  l.foldl (fun p ht =>
    if duration_order.indexOf ht.duration < duration_order.indexOf p.duration
    then ht else p) first

/-- The dict returned by `calculate_holding_time`: the no-trigger return of
market_narrative.py lines 97-102 omits the `primary_*` keys, modelled as
`none` fields. -/
structure HoldingInfo where
  primary_duration : String
  primary_trigger : Option String
  primary_exit : Option String
  primary_rationale : Option String
  all_triggers : List HoldingEntry
  exit_summary : String
deriving DecidableEq, Repr

/-- Embeds `calculate_holding_time` (market_narrative.py lines 48-118). -/
def calculate_holding_time (triggers : Triggers) (enso_signal : Option String) :
    HoldingInfo :=
  match holdingTimesList triggers enso_signal with
  | [] =>
    ⟨"N/A - No active position recommended", none, none, none, [],
     "Wait for clear weather or fundamental trigger before entering"⟩
  | first :: rest =>
    let primary := pickPrimary (first :: rest) first
    ⟨primary.duration, some primary.trigger, some primary.exit_condition,
     some primary.rationale, first :: rest, primary.exit_condition⟩

/-- Embeds `generate_correlated_risk_warning` (market_narrative.py
lines 121-144): `None` unless `dual_region_stress`; otherwise the warning
text naming the stressed regions and the stocks ratio (long body
abbreviated — only presence and the interpolated data matter downstream). -/
def generate_correlated_risk_warning (triggers : Triggers) (r : ℚ) :
    Option String :=
  if !triggers.dual_region_stress then none
  else some ("CORRELATED SUPPLY DESTRUCTION WARNING: Both " ++
    String.intercalate ", " triggers.stressed_regions ++
    " are experiencing simultaneous weather stress. Current stocks-to-usage at " ++
    toString r ++ " provides ZERO buffer for such losses.")

/-- Proof auxiliary: the last element of `l` when `l` is non-empty,
otherwise the default `d`.  Characterizes the running "latest value wins"
state of the ONI scan. -/
def lastOr (l : List ℚ) (d : Option ℚ) : Option ℚ :=
  match l.getLast? with
  | some v => some v
  | none => d

/-! ## Helper lemmas -/

theorem mean_nonneg (l : List ℚ) (h : ∀ x ∈ l, 0 ≤ x) : 0 ≤ mean l := by
  unfold mean
  exact div_nonneg (List.sum_nonneg h) (by positivity)

theorem mean_pos (l : List ℚ) (hne : l ≠ []) (h : ∀ x ∈ l, 0 < x) : 0 < mean l := by
  unfold mean
  exact div_pos (List.sum_pos l h hne)
    (by exact_mod_cast List.length_pos.mpr hne)

theorem mean_zero (l : List ℚ) (h : ∀ x ∈ l, x = 0) : mean l = 0 := by
  unfold mean
  rw [List.sum_eq_zero h, zero_div]

theorem lastOr_nil (d : Option ℚ) : lastOr [] d = d := rfl

theorem lastOr_cons (v : ℚ) (t : List ℚ) (d : Option ℚ) :
    lastOr (v :: t) d = lastOr t (some v) := by
  unfold lastOr
  cases t with
  | nil => rfl
  | cons b t2 =>
    rw [List.getLast?_cons_cons]
    cases h : (b :: t2).getLast? with
    | some w => rfl
    | none => exact absurd (List.getLast?_eq_none_iff.mp h) (List.cons_ne_nil b t2)

theorem lastOr_append (a b : List ℚ) (d : Option ℚ) :
    lastOr (a ++ b) d = lastOr b (lastOr a d) := by
  induction a generalizing d with
  | nil => rw [List.nil_append, lastOr_nil]
  | cons x t ih => rw [List.cons_append, lastOr_cons, lastOr_cons, ih]

theorem lastOr_none (l : List ℚ) : lastOr l none = l.getLast? := by
  unfold lastOr
  cases h : l.getLast? <;> rfl

theorem oniStep_eq (y : ℚ) (acc : Option (ℚ × ℚ × ℕ)) (p : ℕ × Tok) :
    oniStep y acc p =
      match tokValue p.2 with
      | none => acc
      | some v => some (v, y, p.1) := by
  cases hf : p.2.floatVal with
  | none => simp [oniStep, tokValue, hf]
  | some v =>
    by_cases h : v < -90
    · simp [oniStep, tokValue, hf, h]
    · simp [oniStep, tokValue, hf, h]

theorem oniStep_fold (y : ℚ) :
    ∀ (l : List (ℕ × Tok)) (acc : Option (ℚ × ℚ × ℕ)),
      (l.foldl (oniStep y) acc).map (fun x => x.1) =
        lastOr ((l.map Prod.snd).filterMap tokValue) (acc.map (fun x => x.1))
  | [], acc => by
    rw [List.foldl_nil, List.map_nil, List.filterMap_nil, lastOr_nil]
  | p :: t, acc => by
    rw [List.foldl_cons, List.map_cons, oniStep_eq]
    cases hv : tokValue p.2 with
    | none =>
      rw [List.filterMap_cons_none hv]
      exact oniStep_fold y t acc
    | some v =>
      rw [List.filterMap_cons_some hv, lastOr_cons,
        oniStep_fold y t (some (v, y, p.1))]
      rfl

theorem oniRow_contribution (parts : List Tok) (acc : Option (ℚ × ℚ × ℕ)) :
    (oniRowStep acc parts).map (fun x => x.1) =
      lastOr (if specQual parts then rowValues parts else [])
        (acc.map (fun x => x.1)) := by
  unfold oniRowStep
  cases parts with
  | nil => rw [if_neg (by simp [specQual]), lastOr_nil]
  | cons p0 rest =>
    by_cases hd : p0.isdigitTok
    · simp only [hd, Bool.not_true, Bool.false_eq_true, if_false]
      cases rest with
      | nil =>
        rw [if_neg (by simp)]
        rw [show specQual [p0] = false by simp [specQual]]
        rw [if_neg (by simp), lastOr_nil]
        rw [oniStep_fold]
        rw [show ((([] : List Tok).take 12).enum.map Prod.snd) = [] by rfl]
        rw [List.filterMap_nil, lastOr_nil]
      | cons r1 rest2 =>
        cases rest2 with
        | nil =>
          rw [if_pos (by rfl)]
          rw [show specQual [p0, r1] = false by simp [specQual]]
          rw [if_neg (by simp), lastOr_nil]
        | cons r2 rest3 =>
          rw [if_neg (by simp)]
          rw [oniStep_fold]
          rw [List.enum_map_snd]
          rw [show specQual (p0 :: r1 :: r2 :: rest3) = true by
            simp [specQual, hd]]
          rw [if_pos rfl]
          rfl
    · simp only [hd, Bool.not_false, if_true]
      rw [show specQual (p0 :: rest) = false by simp [specQual, hd]]
      rw [if_neg (by simp), lastOr_nil]

theorem oniRowStep_fold :
    ∀ (rows : List (List Tok)) (acc : Option (ℚ × ℚ × ℕ)),
      (rows.foldl oniRowStep acc).map (fun x => x.1) =
        lastOr (specValues rows) (acc.map (fun x => x.1))
  | [], acc => by
    rw [List.foldl_nil]
    rw [show specValues [] = [] by rfl, lastOr_nil]
  | parts :: rest, acc => by
    rw [List.foldl_cons, oniRowStep_fold rest (oniRowStep acc parts),
      oniRow_contribution]
    have hsv : specValues (parts :: rest) =
        (if specQual parts then rowValues parts else []) ++ specValues rest := by
      unfold specValues
      rw [List.filter_cons]
      split_ifs with h
      · rw [List.flatMap_cons]
      · rw [List.nil_append]
    rw [hsv, lastOr_append]

theorem pickPrimary_cons (a b : HoldingEntry) (t : List HoldingEntry) :
    pickPrimary (b :: t) a =
      pickPrimary t
        (if duration_order.indexOf b.duration < duration_order.indexOf a.duration
         then b else a) := rfl

theorem pickPrimary_mem :
    ∀ (l : List HoldingEntry) (a : HoldingEntry),
      pickPrimary l a = a ∨ pickPrimary l a ∈ l
  | [], _ => Or.inl rfl
  | b :: t, a => by
    rw [pickPrimary_cons]
    by_cases hc : duration_order.indexOf b.duration <
        duration_order.indexOf a.duration
    · rw [if_pos hc]
      rcases pickPrimary_mem t b with h | h
      · right; rw [h]; exact List.mem_cons_self b t
      · exact Or.inr (List.mem_cons_of_mem b h)
    · rw [if_neg hc]
      rcases pickPrimary_mem t a with h | h
      · exact Or.inl h
      · exact Or.inr (List.mem_cons_of_mem b h)

theorem pickPrimary_min :
    ∀ (l : List HoldingEntry) (a : HoldingEntry),
      duration_order.indexOf (pickPrimary l a).duration ≤
          duration_order.indexOf a.duration ∧
        ∀ q ∈ l, duration_order.indexOf (pickPrimary l a).duration ≤
          duration_order.indexOf q.duration
  | [], _ => ⟨le_refl _, by intro q hq; exact absurd hq (List.not_mem_nil q)⟩
  | b :: t, a => by
    rw [pickPrimary_cons]
    by_cases hc : duration_order.indexOf b.duration <
        duration_order.indexOf a.duration
    · rw [if_pos hc]
      obtain ⟨h1, h2⟩ := pickPrimary_min t b
      refine ⟨le_of_lt (lt_of_le_of_lt h1 hc), ?_⟩
      intro q hq
      rcases List.mem_cons.mp hq with rfl | hq2
      · exact h1
      · exact h2 q hq2
    · rw [if_neg hc]
      obtain ⟨h1, h2⟩ := pickPrimary_min t a
      refine ⟨h1, ?_⟩
      intro q hq
      rcases List.mem_cons.mp hq with rfl | hq2
      · exact le_trans h1 (le_of_not_lt hc)
      · exact h2 q hq2

theorem holdingTimes_cases (t : Triggers) (es : Option String) :
    ∀ e ∈ holdingTimesList t es,
      e = droughtEntry ∨ e = heatEntry ∨ e = harmattanEntry ∨ e = elNinoEntry := by
  intro e he
  unfold holdingTimesList at he
  simp only [List.mem_append] at he
  rcases he with ((h | h) | h) | h <;> split_ifs at h <;>
    simp only [List.mem_singleton, List.not_mem_nil] at h <;> tauto

theorem length_lastN (n : ℕ) (l : List ℚ) (h : n ≤ l.length) :
    (lastN n l).length = n := by
  unfold lastN
  rw [List.length_drop]
  omega

theorem length_diffs (p : List ℚ) : (diffs p).length = p.length - 1 := by
  unfold diffs
  rw [List.length_zipWith, List.length_tail]
  omega

theorem lastN_gainsList (p : List ℚ) (h : 15 ≤ p.length) :
    lastN 14 (gainsList p) =
      (lastN 14 (diffs p)).map (fun d => if d > 0 then d else 0) := by
  obtain ⟨k, hk⟩ : ∃ k, (diffs p).length = k + 14 :=
    ⟨(diffs p).length - 14, by rw [length_diffs]; omega⟩
  unfold lastN gainsList
  rw [List.map_drop]
  have hlen : (0 :: ((diffs p).map fun d => if d > 0 then d else 0)).length - 14
      = (((diffs p).map fun d => if d > 0 then d else 0).length - 14) + 1 := by
    rw [List.length_cons, List.length_map, hk]; omega
  rw [hlen, List.drop_succ_cons, List.length_map]

theorem lastN_lossesList (p : List ℚ) (h : 15 ≤ p.length) :
    lastN 14 (lossesList p) =
      (lastN 14 (diffs p)).map (fun d => if d < 0 then -d else 0) := by
  obtain ⟨k, hk⟩ : ∃ k, (diffs p).length = k + 14 :=
    ⟨(diffs p).length - 14, by rw [length_diffs]; omega⟩
  unfold lastN lossesList
  rw [List.map_drop]
  have hlen : (0 :: ((diffs p).map fun d => if d < 0 then -d else 0)).length - 14
      = (((diffs p).map fun d => if d < 0 then -d else 0).length - 14) + 1 := by
    rw [List.length_cons, List.length_map, hk]; omega
  rw [hlen, List.drop_succ_cons, List.length_map]

theorem gainsList_nonneg (p : List ℚ) : ∀ x ∈ gainsList p, 0 ≤ x := by
  intro x hx
  unfold gainsList at hx
  rcases List.mem_cons.mp hx with rfl | hx2
  · exact le_refl 0
  · obtain ⟨d, _, rfl⟩ := List.mem_map.mp hx2
    split_ifs with hd
    · exact le_of_lt hd
    · exact le_refl 0

theorem lossesList_nonneg (p : List ℚ) : ∀ x ∈ lossesList p, 0 ≤ x := by
  intro x hx
  unfold lossesList at hx
  rcases List.mem_cons.mp hx with rfl | hx2
  · exact le_refl 0
  · obtain ⟨d, _, rfl⟩ := List.mem_map.mp hx2
    split_ifs with hd
    · linarith
    · exact le_refl 0

theorem droughtTierOfDev_matches_z (dev v : ℚ) (hv : 0 < v) :
    (droughtTierOfDev dev v = .severe ↔
      ((dev : ℝ) / Real.sqrt (v : ℝ) < -(3/2))) ∧
    (droughtTierOfDev dev v = .dry ↔
      (-(3/2) ≤ (dev : ℝ) / Real.sqrt (v : ℝ) ∧
        (dev : ℝ) / Real.sqrt (v : ℝ) < -1)) ∧
    (droughtTierOfDev dev v = .normal ↔
      (-1 ≤ (dev : ℝ) / Real.sqrt (v : ℝ))) := by
  set z := (dev : ℝ) / Real.sqrt (v : ℝ) with hz
  have hvR : (0 : ℝ) < (v : ℚ) := by exact_mod_cast hv
  have hs : 0 < Real.sqrt (v : ℝ) := Real.sqrt_pos.mpr hvR
  have hs2 : Real.sqrt (v : ℝ) ^ 2 = (v : ℝ) := Real.sq_sqrt hvR.le
  have hsev : (dev < 0 ∧ (9/4) * v < dev ^ 2) ↔ z < -(3/2) := by
    rw [hz, div_lt_iff₀ hs]
    constructor
    · rintro ⟨h1, h2⟩
      have h1R : (dev : ℝ) < 0 := by exact_mod_cast h1
      have h2R : (9/4) * (v : ℝ) < (dev : ℝ) ^ 2 := by
        have h2c : ((9/4 * v : ℚ) : ℝ) < ((dev ^ 2 : ℚ) : ℝ) := by exact_mod_cast h2
        push_cast at h2c
        linarith
      nlinarith [hs, hs2, sq_nonneg ((dev : ℝ) + (3/2) * Real.sqrt (v : ℝ))]
    · intro h
      have h1R : (dev : ℝ) < 0 := by nlinarith [hs]
      have h2R : (9/4) * (v : ℝ) < (dev : ℝ) ^ 2 := by nlinarith [hs, hs2]
      refine ⟨by exact_mod_cast h1R, ?_⟩
      have h2c : ((9/4 * v : ℚ) : ℝ) < ((dev ^ 2 : ℚ) : ℝ) := by push_cast; linarith
      exact_mod_cast h2c
  have hdry : (dev < 0 ∧ v < dev ^ 2) ↔ z < -1 := by
    rw [hz, div_lt_iff₀ hs]
    constructor
    · rintro ⟨h1, h2⟩
      have h1R : (dev : ℝ) < 0 := by exact_mod_cast h1
      have h2R : (v : ℝ) < (dev : ℝ) ^ 2 := by exact_mod_cast h2
      nlinarith [hs, hs2, sq_nonneg ((dev : ℝ) + Real.sqrt (v : ℝ))]
    · intro h
      have h1R : (dev : ℝ) < 0 := by nlinarith [hs]
      have h2R : (v : ℝ) < (dev : ℝ) ^ 2 := by nlinarith [hs, hs2]
      exact ⟨by exact_mod_cast h1R, by exact_mod_cast h2R⟩
  unfold droughtTierOfDev
  split_ifs with h1 h2
  · have hzlt : z < -(3/2) := hsev.mp h1
    exact ⟨iff_of_true rfl hzlt,
      iff_of_false (by decide) (by rintro ⟨hge, _⟩; linarith),
      iff_of_false (by decide) (by intro hge; linarith)⟩
  · have hzlt : z < -1 := hdry.mp h2
    have hge : -(3/2) ≤ z := le_of_not_lt (fun hc => h1 (hsev.mpr hc))
    exact ⟨iff_of_false (by decide) (not_lt.mpr hge),
      iff_of_true rfl ⟨hge, hzlt⟩,
      iff_of_false (by decide) (by intro hge2; linarith)⟩
  · have hge : -1 ≤ z := le_of_not_lt (fun hc => h2 (hdry.mpr hc))
    exact ⟨iff_of_false (by decide) (by intro hc; linarith),
      iff_of_false (by decide) (by rintro ⟨_, hc⟩; linarith),
      iff_of_true rfl hge⟩

/-! ## Claim theorems -/

/-- C9: for every defined z-score `z`, the drought tier is Severe Drought
iff `z < -1.5`, Dry Warning iff `-1.5 <= z < -1.0`, and Normal iff
`z >= -1.0`; at the boundaries `z = -1.5` yields Dry Warning and
`z = -1.0` yields Normal. -/
theorem c9_drought_tier_boundaries :
    ∀ z : ℚ,
      (droughtStatusOfZ z = .severe ↔ z < -(3/2)) ∧
      (droughtStatusOfZ z = .dry ↔ -(3/2) ≤ z ∧ z < -1) ∧
      (droughtStatusOfZ z = .normal ↔ -1 ≤ z) ∧
      droughtStatusOfZ (-(3/2)) = .dry ∧
      droughtStatusOfZ (-1) = .normal := by
  intro z
  refine ⟨?_, ?_, ?_, by norm_num [droughtStatusOfZ], by norm_num [droughtStatusOfZ]⟩ <;>
    unfold droughtStatusOfZ <;>
    split_ifs with h1 h2
  · exact iff_of_true rfl h1
  · exact iff_of_false (by decide) h1
  · exact iff_of_false (by decide) h1
  · exact iff_of_false (by decide) (by rintro ⟨hge, _⟩; linarith)
  · exact iff_of_true rfl ⟨le_of_not_lt h1, h2⟩
  · exact iff_of_false (by decide) (by rintro ⟨_, hc⟩; exact h2 hc)
  · exact iff_of_false (by decide) (by intro hc; linarith)
  · exact iff_of_false (by decide) (by intro hc; linarith)
  · exact iff_of_true rfl (le_of_not_lt h2)

/-- C6: the position multiplier is exactly 2.5 for ratio < 30, 2.0 for
30 <= ratio < 35 and 1.0 for ratio >= 35, with the boundary values 30 and
35 falling into the 2.0 and 1.0 tiers; and the multiplier returned by
`calculate_risk_appetite` alongside the verdict is exactly this step
function of the ratio, for every combination of weather and climate-index
inputs. -/
theorem c6_multiplier_step_function :
    (∀ r : ℚ, r < 30 → (calculate_position_multiplier r).1 = 5/2) ∧
    (∀ r : ℚ, 30 ≤ r → r < 35 → (calculate_position_multiplier r).1 = 2) ∧
    (∀ r : ℚ, 35 ≤ r → (calculate_position_multiplier r).1 = 1) ∧
    (calculate_position_multiplier 30).1 = 2 ∧
    (calculate_position_multiplier 35).1 = 1 ∧
    (∀ (w : WeatherResult) (e : EnsoResult) (r : ℚ),
      (calculate_risk_appetite w e (get_fundamentals_analysis r)).2.2.1 =
        (calculate_position_multiplier r).1) := by
  refine ⟨?_, ?_, ?_, by decide, by decide, ?_⟩
  · intro r h
    unfold calculate_position_multiplier
    rw [if_pos h]
  · intro r h1 h2
    unfold calculate_position_multiplier
    rw [if_neg (not_lt.mpr h1), if_pos h2]
  · intro r h
    unfold calculate_position_multiplier
    rw [if_neg (by linarith), if_neg (not_lt.mpr h)]
  · intro w e r
    rfl

/-- C2: for every list of emitted signals the verdict tier follows the
fixed priority order (any ExtremeBullish gives Maximum Conviction, else
two or more bullish signals give High Conviction, else exactly one gives
Moderate Bullish, else any bearish signal gives Cautious, else Neutral);
in particular at least one bullish signal rules out the Cautious and
Neutral tiers no matter how many bearish signals are present. -/
theorem c2_verdict_tier_priority :
    ∀ signals : List Signal,
      (0 < extreme_count signals →
        (appetite_description signals).1 = .max_conviction) ∧
      (extreme_count signals = 0 → 2 ≤ bullish_count signals →
        (appetite_description signals).1 = .high_conviction) ∧
      (extreme_count signals = 0 → bullish_count signals = 1 →
        (appetite_description signals).1 = .moderate_bullish) ∧
      (extreme_count signals = 0 → bullish_count signals = 0 →
        0 < bearish_count signals →
        (appetite_description signals).1 = .cautious) ∧
      (extreme_count signals = 0 → bullish_count signals = 0 →
        bearish_count signals = 0 →
        (appetite_description signals).1 = .neutral) ∧
      (1 ≤ bullish_count signals →
        (appetite_description signals).1 ≠ .cautious ∧
        (appetite_description signals).1 ≠ .neutral) := by
  intro signals
  refine ⟨?_, ?_, ?_, ?_, ?_, ?_⟩ <;> intros <;> unfold appetite_description <;>
    split_ifs <;> first
      | rfl
      | omega
      | exact ⟨by decide, by decide⟩

/-- C10: when every wind reading of the current window is missing, the
harmattan tier is Normal no matter what the humidity series contains — the
all-missing default for wind is 0, which can never exceed the 46 km/h
threshold. -/
theorem c10_missing_wind_suppresses_harmattan :
    ∀ wind humidity : List (Option ℚ),
      (∀ x ∈ wind, x = none) →
      harmattanStatus wind humidity = .normal := by
  intro wind humidity h
  have hw : wind.filterMap id = [] := by
    rw [List.filterMap_eq_nil_iff]
    intro a ha
    exact h a ha
  unfold harmattanStatus
  rw [hw]
  simp only [List.isEmpty_nil, if_true]
  rw [if_neg (by intro hc; exact absurd hc.1 (by norm_num))]

/-- C8: the correlated-risk warning is produced iff at least 2 regions
each have at least one active stress condition (severe drought, critical
heat or active harmattan, in any combination); a single region with
several simultaneous stress conditions counts once and never triggers the
warning. -/
theorem c8_correlated_warning_iff_two_stressed :
    (∀ (regions : List (String × RegionData)) (r : ℚ),
      (generate_correlated_risk_warning
          (analyze_weather_triggers (analyze_weather_results regions)) r).isSome ↔
        2 ≤ (regions.filter (fun x => isStressed x.2)).length) ∧
    (∀ (name : String) (d : RegionData) (r : ℚ),
      generate_correlated_risk_warning
        (analyze_weather_triggers (analyze_weather_results [(name, d)])) r = none) := by
  constructor
  · intro regions r
    unfold generate_correlated_risk_warning analyze_weather_triggers
      analyze_weather_results
    by_cases h : 2 ≤ (regions.filter (fun x => isStressed x.2)).length
    · rw [if_neg (by simp [List.length_map, h])]
      simp only [Option.isSome_some, true_iff]
      exact h
    · rw [if_pos (by simp [List.length_map, h])]
      simp only [Option.isSome_none, Bool.false_eq_true, false_iff]
      exact h
  · intro name d r
    unfold generate_correlated_risk_warning analyze_weather_triggers
      analyze_weather_results
    rw [if_pos]
    simp only [Bool.not_eq_true']
    rw [decide_eq_false_iff_not]
    intro hc
    have : ((([(name, d)].filter (fun x => isStressed x.2)).map
        (fun x => x.1)).length) ≤ 1 := by
      rw [List.length_map]
      cases hs : isStressed d <;> simp [List.filter, hs]
    omega

/-- C4: the dual-region flag is set iff at least 2 regions are classified
Severe Drought; whenever it is set an ExtremeBullish signal is emitted and
the verdict tier is Maximum Conviction no matter what the climate index
says; and in the one-stressed-region scenario (one region Severe Drought
plus Critical Heat, the other Normal, climate index Neutral, ratio 28) the
flag stays false, the bullish count is exactly 2 and the tier is High
Conviction. -/
theorem c4_dual_region_drought_flag :
    (∀ regions : List (String × RegionData),
      ((analyze_weather_results regions).dual_region_drought_detected = true ↔
        2 ≤ (regions.filter
          (fun x => x.2.drought_status == DroughtStatus.severe)).length)) ∧
    (∀ (regions : List (String × RegionData)) (e : EnsoResult) (f : FundAnalysis),
      (analyze_weather_results regions).dual_region_drought_detected = true →
      (∃ s ∈ (calculate_risk_appetite (analyze_weather_results regions) e f).2.2.2,
        s.1 = Strength.extreme_bullish) ∧
      (calculate_risk_appetite (analyze_weather_results regions) e f).1 =
        Appetite.max_conviction) ∧
    ((analyze_weather_results
        [("San Pedro", ⟨.severe, .critical, .normal⟩),
         ("Kumasi", ⟨.normal, .normal, .normal⟩)]).dual_region_drought_detected
        = false ∧
      bullish_count (buildSignals
        (analyze_weather_results
          [("San Pedro", ⟨.severe, .critical, .normal⟩),
           ("Kumasi", ⟨.normal, .normal, .normal⟩)])
        ⟨some (1/2), "NEUTRAL", none, none, "ENSO Neutral"⟩) = 2 ∧
      (calculate_risk_appetite
        (analyze_weather_results
          [("San Pedro", ⟨.severe, .critical, .normal⟩),
           ("Kumasi", ⟨.normal, .normal, .normal⟩)])
        ⟨some (1/2), "NEUTRAL", none, none, "ENSO Neutral"⟩
        (get_fundamentals_analysis 28)).1 = Appetite.high_conviction) := by
  refine ⟨?_, ?_, by decide, by decide, by decide⟩
  · intro regions
    unfold analyze_weather_results
    simp [List.length_map]
  · intro regions e f h
    have hsig : buildSignals (analyze_weather_results regions) e =
        (Strength.extreme_bullish, "Dual-Region Drought") ::
          (region_signals (analyze_weather_results regions).regions ++
            enso_signals e.signal) := by
      unfold buildSignals
      rw [h, if_pos rfl]
      simp
    have happ : (calculate_risk_appetite (analyze_weather_results regions) e f).2.2.2
        = buildSignals (analyze_weather_results regions) e := rfl
    constructor
    · rw [happ, hsig]
      exact ⟨_, List.mem_cons_self _ _, rfl⟩
    · show (appetite_description
        (buildSignals (analyze_weather_results regions) e)).1 = _
      rw [hsig]
      unfold appetite_description
      rw [if_pos]
      unfold extreme_count
      rw [List.filter_cons]
      simp

/-- C3: with at least one active trigger, `calculate_holding_time` selects
as primary an entry of the trigger list whose duration bucket ranks
earliest in the fixed precedence list `duration_order`; in particular an
active drought trigger together with an active climate-index-bullish
trigger resolves the primary duration to "6-8 months", not "3-4 weeks";
and with no active trigger the result reports that no position is
recommended, with an empty trigger list. -/
theorem c3_holding_time_precedence :
    (∀ (t : Triggers) (es : Option String),
      holdingTimesList t es ≠ [] →
      ∃ p ∈ holdingTimesList t es,
        (calculate_holding_time t es).primary_duration = p.duration ∧
        ∀ q ∈ holdingTimesList t es,
          duration_order.indexOf p.duration ≤ duration_order.indexOf q.duration) ∧
    (∀ (t : Triggers) (es : Option String),
      t.drought_regions ≠ [] → es = some "BULLISH" →
      (calculate_holding_time t es).primary_duration = "6-8 months") ∧
    (∀ (t : Triggers) (es : Option String),
      t.drought_regions = [] → t.heat_regions = [] → t.harmattan_regions = [] →
      es ≠ some "BULLISH" →
      (calculate_holding_time t es).primary_duration =
          "N/A - No active position recommended" ∧
        (calculate_holding_time t es).all_triggers = []) := by
  refine ⟨?_, ?_, ?_⟩
  · intro t es hne
    cases hl : holdingTimesList t es with
    | nil => exact absurd hl hne
    | cons first rest =>
      refine ⟨pickPrimary (first :: rest) first, ?_, ?_, ?_⟩
      · rcases pickPrimary_mem (first :: rest) first with h | h
        · rw [h]; exact List.mem_cons_self _ _
        · exact h
      · unfold calculate_holding_time
        rw [hl]
      · rw [← hl] at *
        exact fun q hq => (pickPrimary_min (holdingTimesList t es) first).2 q hq
  · intro t es hd hes
    subst hes
    have hmem : elNinoEntry ∈ holdingTimesList t (some "BULLISH") := by
      unfold holdingTimesList
      simp
    cases hl : holdingTimesList t (some "BULLISH") with
    | nil => rw [hl] at hmem; exact absurd hmem (List.not_mem_nil _)
    | cons first rest =>
      have hprim : (calculate_holding_time t (some "BULLISH")).primary_duration =
          (pickPrimary (first :: rest) first).duration := by
        unfold calculate_holding_time
        rw [hl]
      have hle := (pickPrimary_min (first :: rest) first).2 elNinoEntry
        (hl ▸ hmem)
      have hzero : duration_order.indexOf
          (pickPrimary (first :: rest) first).duration = 0 := by
        have h0 : duration_order.indexOf elNinoEntry.duration = 0 := by decide
        omega
      have hin : pickPrimary (first :: rest) first ∈ holdingTimesList t (some "BULLISH") := by
        rw [hl]
        rcases pickPrimary_mem (first :: rest) first with h | h
        · rw [h]; exact List.mem_cons_self _ _
        · exact h
      rcases holdingTimes_cases t (some "BULLISH") _ hin with h | h | h | h <;>
        rw [hprim, h] <;> rw [h] at hzero <;>
        first
          | rfl
          | (exfalso; revert hzero; decide)
  · intro t es h1 h2 h3 h4
    have hl : holdingTimesList t es = [] := by
      unfold holdingTimesList
      rw [if_pos (by rw [h1]; rfl), if_pos (by rw [h2]; rfl),
        if_pos (by rw [h3]; rfl), if_neg (by simpa using h4)]
      rfl
    constructor <;> unfold calculate_holding_time <;> rw [hl]

/-- C7: the ONI parser's result is exactly the last non-sentinel value, in
file order, contributed by rows whose first token is a whole number and
that have more than 2 tokens, each row scanned over its first 12 value
columns with values below -90 skipped; and the classification of the
returned value is BULLISH iff it exceeds 1.2, BEARISH iff it is below
-1.0, and NEUTRAL otherwise. -/
theorem c7_oni_last_valid_and_classification :
    (∀ rows : List (List Tok),
      (parse_oni_data rows).map (fun x => x.1) = (specValues rows).getLast?) ∧
    (∀ v : ℚ,
      ((interpret_oni v).1 = "BULLISH" ↔ 6/5 < v) ∧
      ((interpret_oni v).1 = "BEARISH" ↔ v < -1) ∧
      ((interpret_oni v).1 = "NEUTRAL" ↔ -1 ≤ v ∧ v ≤ 6/5)) := by
  constructor
  · intro rows
    unfold parse_oni_data
    rw [oniRowStep_fold rows none]
    exact lastOr_none _
  · intro v
    unfold interpret_oni
    split_ifs with h1 h2
    · exact ⟨iff_of_true rfl h1,
        iff_of_false (by decide) (by intro hc; linarith),
        iff_of_false (by decide) (by rintro ⟨_, hc⟩; linarith)⟩
    · exact ⟨iff_of_false (by decide) h1,
        iff_of_true rfl h2,
        iff_of_false (by decide) (by rintro ⟨hc, _⟩; linarith)⟩
    · exact ⟨iff_of_false (by decide) h1,
        iff_of_false (by decide) h2,
        iff_of_true rfl ⟨le_of_not_lt h2, le_of_not_lt h1⟩⟩

/-- C5: for every price series of at least 50 bars whose final 14-period
average gain and average loss are not both zero, the RSI(14) is defined
(no NaN) and lies in [0, 100]; and when the last 14 bar-to-bar deltas are
all gains the average loss is zero and the RSI is exactly 100, produced
without an error (the zero-denominator case yields 100 rather than an
undefined value). -/
theorem c5_rsi_bounds :
    ∀ prices : List ℚ, 50 ≤ prices.length →
      ((¬(avg_gains_last prices 14 = 0 ∧ avg_losses_last prices 14 = 0)) →
        ∃ r, calculate_rsi prices 14 = some r ∧ 0 ≤ r ∧ r ≤ 100) ∧
      ((∀ d ∈ lastN 14 (diffs prices), 0 < d) →
        calculate_rsi prices 14 = some 100) := by
  intro prices hlen
  have hnl : ¬ prices.length < 14 := by omega
  constructor
  · intro hnb
    have hg0 : 0 ≤ avg_gains_last prices 14 :=
      mean_nonneg _ (fun x hx =>
        gainsList_nonneg prices x (List.drop_subset _ _ hx))
    have hl0 : 0 ≤ avg_losses_last prices 14 :=
      mean_nonneg _ (fun x hx =>
        lossesList_nonneg prices x (List.drop_subset _ _ hx))
    unfold calculate_rsi
    rw [if_neg hnl]
    by_cases hl : avg_losses_last prices 14 = 0
    · have hg : ¬ avg_gains_last prices 14 = 0 := fun hg => hnb ⟨hg, hl⟩
      rw [if_pos hl, if_neg hg]
      exact ⟨100, rfl, by norm_num, le_refl 100⟩
    · rw [if_neg hl]
      have hlp : 0 < avg_losses_last prices 14 :=
        lt_of_le_of_ne hl0 (Ne.symm hl)
      have hrs : 0 ≤ avg_gains_last prices 14 / avg_losses_last prices 14 :=
        div_nonneg hg0 hlp.le
      refine ⟨_, rfl, ?_, ?_⟩
      · have hds : 100 / (1 + avg_gains_last prices 14 / avg_losses_last prices 14)
            ≤ 100 := div_le_self (by norm_num) (by linarith)
        linarith
      · have hdn : 0 ≤ 100 / (1 + avg_gains_last prices 14 / avg_losses_last prices 14) :=
          div_nonneg (by norm_num) (by linarith)
        linarith
  · intro hpos
    have hdl : (diffs prices).length = prices.length - 1 := length_diffs prices
    have hgain : lastN 14 (gainsList prices) = lastN 14 (diffs prices) := by
      rw [lastN_gainsList prices (by omega)]
      have : ∀ d ∈ lastN 14 (diffs prices),
          (if d > 0 then d else 0) = id d := by
        intro d hd
        rw [if_pos (hpos d hd)]
        rfl
      rw [List.map_congr_left this, List.map_id]
    have hloss : ∀ x ∈ lastN 14 (lossesList prices), x = 0 := by
      rw [lastN_lossesList prices (by omega)]
      intro x hx
      obtain ⟨d, hd, rfl⟩ := List.mem_map.mp hx
      rw [if_neg (not_lt.mpr (le_of_lt (hpos d hd)))]
    have hl0 : avg_losses_last prices 14 = 0 := mean_zero _ hloss
    have hg : 0 < avg_gains_last prices 14 := by
      unfold avg_gains_last
      rw [hgain]
      refine mean_pos _ ?_ hpos
      have h14 : (lastN 14 (diffs prices)).length = 14 :=
        length_lastN 14 _ (by omega)
      intro hc
      rw [hc] at h14
      exact absurd h14.symm (by norm_num)
    unfold calculate_rsi
    rw [if_neg hnl, if_pos hl0, if_neg (ne_of_gt hg)]

/-- C1 counterexample: the claim says `analyze_weather` returns a sentinel
Unknown record and does not raise when the z-score is undefined, but on a
region whose five yearly rainfall totals are all equal (standard deviation
zero) the z-score division at fetch_history.py line 83 raises a
`ZeroDivisionError` instead of returning any record. -/
theorem c1_weather_raises_counterexample :
    droughtAnalysis [100, 100, 100, 100, 100] = Except.error PyError.zeroDivision := by
  have h : sampleVariance [100, 100, 100, 100, 100] = 0 := by
    norm_num [sampleVariance, mean]
  unfold droughtAnalysis
  rw [if_pos h]

/-- C1 (amended): the climate-index and technical sources do degrade to
sentinel Unknown records — `get_enso_signal` returns the UNKNOWN record
when the series has no valid value, and `get_technical_analysis` returns
the Unknown record when fewer than 50 bars are available — but the weather
source does not: whenever the sample variance of the yearly rainfall
totals is zero, `analyze_weather`'s z-score computation raises a
`ZeroDivisionError` rather than producing a sentinel classification. -/
theorem c1_unknown_sentinels_amended :
    (∀ rainfall_values : List ℚ, sampleVariance rainfall_values = 0 →
      droughtAnalysis rainfall_values = Except.error PyError.zeroDivision) ∧
    (∀ rows : List (List Tok), parse_oni_data rows = none →
      (get_enso_signal rows).signal = "UNKNOWN" ∧
      (get_enso_signal rows).value = none) ∧
    (∀ (closes : List ℚ) (volumes : List (Option ℤ)), closes.length < 50 →
      (get_technical_analysis closes volumes).signal = "UNKNOWN" ∧
      (get_technical_analysis closes volumes).trend = "Unknown" ∧
      (get_technical_analysis closes volumes).rsi_status = "Unknown" ∧
      (get_technical_analysis closes volumes).price = none) := by
  refine ⟨?_, ?_, ?_⟩
  · intro rainfall_values h
    unfold droughtAnalysis
    rw [if_pos h]
  · intro rows h
    unfold get_enso_signal
    rw [h]
    exact ⟨rfl, rfl⟩
  · intro closes volumes h
    unfold get_technical_analysis
    rw [if_pos h]
    exact ⟨rfl, rfl, rfl, rfl⟩

/-- C1 witness: concrete instances of each amended clause — equal rainfall
totals give zero variance and the error result; a header-only index feed
gives the UNKNOWN record; a one-bar price history gives the Unknown
record. -/
theorem c1_unknown_sentinels_witness :
    sampleVariance [1, 1, 1, 1, 1] = 0 ∧
    droughtAnalysis [1, 1, 1, 1, 1] = Except.error PyError.zeroDivision ∧
    (get_enso_signal [[⟨true, some 1950⟩, ⟨true, some 2024⟩]]).signal = "UNKNOWN" ∧
    (get_technical_analysis [5800] []).signal = "UNKNOWN" := by
  have hv : sampleVariance [1, 1, 1, 1, 1] = 0 := by
    norm_num [sampleVariance, mean]
  have hp : parse_oni_data [[⟨true, some 1950⟩, ⟨true, some 2024⟩]] = none := rfl
  exact ⟨hv, c1_unknown_sentinels_amended.1 _ hv,
    (c1_unknown_sentinels_amended.2.1 _ hp).1,
    (c1_unknown_sentinels_amended.2.2 [5800] [] (by norm_num)).1⟩

/-- C2 witness: one bullish and one bearish signal — the bullish signal
rules out the Cautious and Neutral tiers. -/
theorem c2_verdict_tier_priority_witness :
    1 ≤ bullish_count [(Strength.bullish, "San Pedro Drought"),
        (Strength.bearish, "La Nina Active")] ∧
      (appetite_description [(Strength.bullish, "San Pedro Drought"),
        (Strength.bearish, "La Nina Active")]).1 ≠ Appetite.cautious ∧
      (appetite_description [(Strength.bullish, "San Pedro Drought"),
        (Strength.bearish, "La Nina Active")]).1 ≠ Appetite.neutral :=
  ⟨by decide, (c2_verdict_tier_priority _).2.2.2.2.2 (by decide)⟩

/-- C3 witness: a drought trigger together with a bullish climate-index
signal resolves the primary duration to "6-8 months". -/
theorem c3_holding_time_precedence_witness :
    (⟨["Abidjan"], [], [], false, ["Abidjan"]⟩ : Triggers).drought_regions ≠ [] ∧
    (calculate_holding_time ⟨["Abidjan"], [], [], false, ["Abidjan"]⟩
      (some "BULLISH")).primary_duration = "6-8 months" :=
  ⟨by decide, c3_holding_time_precedence.2.1 _ _ (by decide) rfl⟩

/-- C4 witness: two severe-drought regions set the dual flag and force the
Maximum Conviction tier even against a bearish climate index. -/
theorem c4_dual_region_drought_flag_witness :
    (analyze_weather_results [("CI", ⟨.severe, .normal, .normal⟩),
      ("GH", ⟨.severe, .normal, .normal⟩)]).dual_region_drought_detected = true ∧
    (calculate_risk_appetite
      (analyze_weather_results [("CI", ⟨.severe, .normal, .normal⟩),
        ("GH", ⟨.severe, .normal, .normal⟩)])
      ⟨some (-2), "BEARISH", none, none, "LA NINA SIGNAL: Check Atlantic Temps"⟩
      (get_fundamentals_analysis 28)).1 = Appetite.max_conviction :=
  ⟨by decide,
   (c4_dual_region_drought_flag.2.1 _
     ⟨some (-2), "BEARISH", none, none, "LA NINA SIGNAL: Check Atlantic Temps"⟩
     (get_fundamentals_analysis 28) (by decide)).2⟩

/-- C5 witness: a strictly increasing 50-bar series has only gains over
its last 14 deltas, and its RSI is exactly 100. -/
theorem c5_rsi_bounds_witness :
    50 ≤ ([1, 2, 3, 4, 5, 6, 7, 8, 9, 10, 11, 12, 13, 14, 15, 16, 17, 18, 19, 20, 21, 22, 23, 24, 25, 26, 27, 28, 29, 30, 31, 32, 33, 34, 35, 36, 37, 38, 39, 40, 41, 42, 43, 44, 45, 46, 47, 48, 49, 50] : List ℚ).length ∧
    calculate_rsi ([1, 2, 3, 4, 5, 6, 7, 8, 9, 10, 11, 12, 13, 14, 15, 16, 17, 18, 19, 20, 21, 22, 23, 24, 25, 26, 27, 28, 29, 30, 31, 32, 33, 34, 35, 36, 37, 38, 39, 40, 41, 42, 43, 44, 45, 46, 47, 48, 49, 50] : List ℚ) 14 = some 100 := by
  refine ⟨by norm_num, ?_⟩
  exact (c5_rsi_bounds _ (by norm_num)).2 (by norm_num [diffs, lastN])

/-- C6 witness: ratio 29 sits below 30 and gets the 2.5x multiplier. -/
theorem c6_multiplier_step_function_witness :
    (29 : ℚ) < 30 ∧ (calculate_position_multiplier 29).1 = 5/2 :=
  ⟨by norm_num, c6_multiplier_step_function.1 29 (by norm_num)⟩

/-- C10 witness: an all-missing wind series yields the Normal harmattan
tier even with very low humidity readings. -/
theorem c10_missing_wind_suppresses_harmattan_witness :
    (∀ x ∈ ([none, none] : List (Option ℚ)), x = none) ∧
    harmattanStatus [none, none] [some 10] = HarmattanStatus.normal :=
  ⟨by decide, c10_missing_wind_suppresses_harmattan [none, none] [some 10] (by decide)⟩
